import Mathlib

/-!
Verification development for the Audio360 distribution package
(`third_party/facebook/Audio360`). The repository ships the public headers
(`TBE_AudioEngineDefinitions.h`, `TBE_AudioEngine.h`, `TBE_IOStream.h`) of a
spatial-audio engine together with a prebuilt shared library; the inline
helpers and enumerations below are translated directly from the headers,
while the behaviour of the engine objects (queues, pools, transport,
virtualizer), whose implementation lives only in the closed binary, is
modelled from the specification and the headers' documented contracts.
-/

namespace TBE

/-- The `ChannelMap` enumeration of `TBE_AudioEngineDefinitions.h`
(`enum class ChannelMap`), in declaration order; the C++ underlying values
are therefore 0..25. -/
inductive ChannelMap where
  | TBE_8_2
  | TBE_8
  | TBE_6_2
  | TBE_6
  | TBE_4_2
  | TBE_4
  | TBE_8_PAIR0
  | TBE_8_PAIR1
  | TBE_8_PAIR2
  | TBE_8_PAIR3
  | TBE_CHANNEL0
  | TBE_CHANNEL1
  | TBE_CHANNEL2
  | TBE_CHANNEL3
  | TBE_CHANNEL4
  | TBE_CHANNEL5
  | TBE_CHANNEL6
  | TBE_CHANNEL7
  | HEADLOCKED_STEREO
  | HEADLOCKED_CHANNEL0
  | HEADLOCKED_CHANNEL1
  | AMBIX_4
  | AMBIX_9
  | AMBIX_9_2
  | STEREO
  | INVALID
  deriving DecidableEq, Repr, Fintype

/-- Underlying integer value of each `ChannelMap` enumerator (C++ assigns
consecutive values starting at 0). -/
def channelMapValue (map : ChannelMap) : Int :=
  match map with
  | .TBE_8_2 => 0
  | .TBE_8 => 1
  | .TBE_6_2 => 2
  | .TBE_6 => 3
  | .TBE_4_2 => 4
  | .TBE_4 => 5
  | .TBE_8_PAIR0 => 6
  | .TBE_8_PAIR1 => 7
  | .TBE_8_PAIR2 => 8
  | .TBE_8_PAIR3 => 9
  | .TBE_CHANNEL0 => 10
  | .TBE_CHANNEL1 => 11
  | .TBE_CHANNEL2 => 12
  | .TBE_CHANNEL3 => 13
  | .TBE_CHANNEL4 => 14
  | .TBE_CHANNEL5 => 15
  | .TBE_CHANNEL6 => 16
  | .TBE_CHANNEL7 => 17
  | .HEADLOCKED_STEREO => 18
  | .HEADLOCKED_CHANNEL0 => 19
  | .HEADLOCKED_CHANNEL1 => 20
  | .AMBIX_4 => 21
  | .AMBIX_9 => 22
  | .AMBIX_9_2 => 23
  | .STEREO => 24
  | .INVALID => 25

/-- Translation of `inline int32_t getNumChannelsForMap(ChannelMap map)`
(`TBE_AudioEngineDefinitions.h:291-328`). The switch has no case for
`STEREO` or `INVALID`; both fall to `default: return 0`. -/
def getNumChannelsForMap (map : ChannelMap) : Int :=
  match map with
  | .TBE_8_2 => 10
  | .TBE_6_2 | .TBE_8 => 8
  | .TBE_6 | .TBE_4_2 => 6
  | .TBE_4 | .AMBIX_4 => 4
  | .TBE_8_PAIR0 | .TBE_8_PAIR1 | .TBE_8_PAIR2 | .TBE_8_PAIR3
  | .HEADLOCKED_STEREO => 2
  | .TBE_CHANNEL0 | .TBE_CHANNEL1 | .TBE_CHANNEL2 | .TBE_CHANNEL3
  | .TBE_CHANNEL4 | .TBE_CHANNEL5 | .TBE_CHANNEL6 | .TBE_CHANNEL7
  | .HEADLOCKED_CHANNEL0 | .HEADLOCKED_CHANNEL1 => 1
  | .AMBIX_9 => 9
  | .AMBIX_9_2 => 11
  | _ => 0

/-- The same switch viewed on the raw underlying integer: a C++ `ChannelMap`
variable may hold any `int` value, and any value with no matching case
(including `STEREO = 24` and `INVALID = 25`) takes the `default` branch and
yields 0. Each case tests equality with the enumerator's underlying value. -/
def getNumChannelsForMapRaw (v : Int) : Int :=
  if v = 0 then 10
  else if v = 2 ∨ v = 1 then 8
  else if v = 3 ∨ v = 4 then 6
  else if v = 5 ∨ v = 21 then 4
  else if v = 6 ∨ v = 7 ∨ v = 8 ∨ v = 9 ∨ v = 18 then 2
  else if v = 10 ∨ v = 11 ∨ v = 12 ∨ v = 13 ∨ v = 14 ∨ v = 15 ∨ v = 16 ∨
      v = 17 ∨ v = 19 ∨ v = 20 then 1
  else if v = 22 then 9
  else if v = 23 then 11
  else 0

/-- The per-map channel counts exactly as the claim's sentence lists them,
except at `STEREO`, where the code's `default` branch yields 0 rather than
the claimed 2 (the amended table). -/
def numChannelsSpecTable (map : ChannelMap) : Int :=
  match map with
  | .TBE_8_2 => 10
  | .TBE_8 => 8
  | .TBE_6_2 => 8
  | .TBE_6 => 6
  | .TBE_4_2 => 6
  | .TBE_4 => 4
  | .AMBIX_4 => 4
  | .TBE_8_PAIR0 => 2
  | .TBE_8_PAIR1 => 2
  | .TBE_8_PAIR2 => 2
  | .TBE_8_PAIR3 => 2
  | .HEADLOCKED_STEREO => 2
  | .TBE_CHANNEL0 => 1
  | .TBE_CHANNEL1 => 1
  | .TBE_CHANNEL2 => 1
  | .TBE_CHANNEL3 => 1
  | .TBE_CHANNEL4 => 1
  | .TBE_CHANNEL5 => 1
  | .TBE_CHANNEL6 => 1
  | .TBE_CHANNEL7 => 1
  | .HEADLOCKED_CHANNEL0 => 1
  | .HEADLOCKED_CHANNEL1 => 1
  | .AMBIX_9 => 9
  | .AMBIX_9_2 => 11
  | .STEREO => 0
  | .INVALID => 0

/-- The `EngineError` enumeration of `TBE_AudioEngineDefinitions.h:88-111`,
in declaration order. -/
inductive EngineError where
  | QUEUE_FULL
  | BAD_THREAD
  | NOT_SUPPORTED
  | NO_AUDIO_DEVICE
  | COULD_NOT_CONNECT
  | MEMORY_MAP_FAIL
  | INVALID_URL_FORMAT
  | ERROR_OPENING_TEMP_FILE
  | INVALID_HEADER
  | CURL_FAIL
  | INVALID_CHANNEL_COUNT
  | CANNOT_INIT_DECODER
  | ERROR_OPENING_FILE
  | NO_ASSET
  | CANNOT_ALLOCATE_MEMORY
  | CANNOT_CREATE_AUDIO_DEVICE
  | CANNOT_INITIALISE_CORE
  | INVALID_BUFFER_SIZE
  | INVALID_SAMPLE_RATE
  | NO_OBJECTS_IN_POOL
  | FAIL
  | OK
  deriving DecidableEq, Repr, Fintype

/-- Explicit integer value of each `EngineError` member, exactly as assigned
in the header (`QUEUE_FULL = -21` down to `OK = 0`). -/
def engineErrorValue (e : EngineError) : Int :=
  match e with
  | .QUEUE_FULL => -21
  | .BAD_THREAD => -20
  | .NOT_SUPPORTED => -19
  | .NO_AUDIO_DEVICE => -18
  | .COULD_NOT_CONNECT => -17
  | .MEMORY_MAP_FAIL => -16
  | .INVALID_URL_FORMAT => -15
  | .ERROR_OPENING_TEMP_FILE => -14
  | .INVALID_HEADER => -13
  | .CURL_FAIL => -12
  | .INVALID_CHANNEL_COUNT => -11
  | .CANNOT_INIT_DECODER => -10
  | .ERROR_OPENING_FILE => -9
  | .NO_ASSET => -8
  | .CANNOT_ALLOCATE_MEMORY => -7
  | .CANNOT_CREATE_AUDIO_DEVICE => -6
  | .CANNOT_INITIALISE_CORE => -5
  | .INVALID_BUFFER_SIZE => -4
  | .INVALID_SAMPLE_RATE => -3
  | .NO_OBJECTS_IN_POOL => -2
  | .FAIL => -1
  | .OK => 0

/-- The `PlayState` enumeration of `TBE_AudioEngineDefinitions.h:113`. -/
inductive PlayState where
  | PLAYING
  | PAUSED
  | STOPPED
  | INVALID
  deriving DecidableEq, Repr

/-- The unscoped `enum Options` of `TBE_AudioEngineDefinitions.h:157`: a C++
enum over `int` whose variables may hold any or-combination of the
enumerators, so it is modelled by its underlying (non-negative) value. -/
structure Options where
  val : Nat
  deriving DecidableEq, Repr

/-- Enumerator `Options::DEFAULT = 0`. -/
def Options.DEFAULT : Options := ⟨0⟩

/-- Enumerator `Options::DECODE_IN_AUDIO_CALLBACK = 1 << 0`. -/
def Options.DECODE_IN_AUDIO_CALLBACK : Options := ⟨1⟩

/-- Translation of `inline Options operator|(Options a, Options b)`
(`TBE_AudioEngineDefinitions.h:159-161`): bitwise or of the underlying
integers, cast back to `Options`. -/
def orOptions (a b : Options) : Options := ⟨Nat.lor a.val b.val⟩

/-- Modelled from the spec: the state of a `SpatDecoderQueue`, whose
implementation ships only in the closed binary (the header declares the pure
virtual interface). Per spec section 3 there is one SPSC ring buffer of
interleaved samples per channel map, with a per-channel capacity fixed at
pool-init time (`spatQueueSizePerChannel`), plus an end-of-stream flag set by
`setEndOfStream`. Buffered data is the list of queued samples; the sample
type is a parameter so that the float and the 16-bit-int `enqueueData`
variants share one model. -/
structure SpatDecoderQueueState (α : Type) where
  capacityPerChannel : Nat
  queued : ChannelMap → List α
  endOfStream : Bool

/-- Modelled from the spec: total capacity in samples of the queue for a
given map, `spatQueueSizePerChannel` times the map's channel count. -/
def queueCapacity {α : Type} (s : SpatDecoderQueueState α) (map : ChannelMap) : Nat :=
  s.capacityPerChannel * (getNumChannelsForMap map).toNat

/-- Modelled from the spec: `SpatDecoderQueue::getQueueSize(channelMap)` —
the number of samples currently buffered for that map. -/
def getQueueSize {α : Type} (s : SpatDecoderQueueState α) (map : ChannelMap) : Nat :=
  (s.queued map).length

/-- Modelled from the spec: `SpatDecoderQueue::getFreeSpaceInQueue(channelMap)`
— remaining room in samples for that map. -/
def getFreeSpaceInQueue {α : Type} (s : SpatDecoderQueueState α) (map : ChannelMap) : Nat :=
  queueCapacity s map - getQueueSize s map

/-- Modelled from the spec: `SpatDecoderQueue::enqueueData` (both the float
and the 16-bit variants, via the sample-type parameter). The call appends as
many leading samples of the buffer as fit in the remaining free space,
returns the number accepted, and never blocks (it is a total function). -/
def enqueueData {α : Type} (buf : List α) (map : ChannelMap)
    (s : SpatDecoderQueueState α) : SpatDecoderQueueState α × Nat :=
  let accepted := buf.take (getFreeSpaceInQueue s map)
  (⟨s.capacityPerChannel,
    fun m => if m = map then s.queued map ++ accepted else s.queued m,
    s.endOfStream⟩,
   accepted.length)

/-- Modelled from the spec: `SpatDecoderQueue::setEndOfStream`. -/
def setEndOfStream {α : Type} (flag : Bool) (s : SpatDecoderQueueState α) :
    SpatDecoderQueueState α :=
  { s with endOfStream := flag }

/-- Modelled from the spec: `SpatDecoderQueue::getEndOfStreamStatus`. -/
def getEndOfStreamStatus {α : Type} (s : SpatDecoderQueueState α) : Bool :=
  s.endOfStream

/-- Modelled from the spec: `SpatDecoderQueue::flushQueue` — clears all
buffered samples and resets the end-of-stream flag to false. -/
def flushQueue {α : Type} (s : SpatDecoderQueueState α) : SpatDecoderQueueState α :=
  ⟨s.capacityPerChannel, fun _ => [], false⟩

/-- Modelled from the spec: the three logical transport families shared by
`TransportControl`'s methods (play-like, pause-like, stop-like). -/
inductive TransportFamily where
  | play
  | pause
  | stop
  deriving DecidableEq, Repr

/-- Modelled from the spec: the transport state machine of
`TransportControl` with its pending scheduled/faded one-shot actions. Per
the header documentation, each scheduled or faded call leaves at most one
pending action of its family (a later call of the same family disregards a
pending one that has not fired), so each family's pending action is one
optional absolute deadline in milliseconds. -/
structure TransportState where
  state : PlayState
  now : Nat
  pendingPlay : Option Nat
  pendingPause : Option Nat
  pendingStop : Option Nat
  deriving DecidableEq, Repr

/-- Modelled from the spec: `TransportControl::play` — immediate play; a
play-like call disregards any pending play-family action. -/
def TransportState.play (s : TransportState) : TransportState :=
  { s with state := PlayState.PLAYING, pendingPlay := none }

/-- Modelled from the spec: `TransportControl::playScheduled(ms)` — records
a pending play at deadline `now + ms`, superseding any pending play. -/
def TransportState.playScheduled (s : TransportState) (ms : Nat) : TransportState :=
  { s with pendingPlay := some (s.now + ms) }

/-- Modelled from the spec: `TransportControl::pause` — immediate pause; a
pause-like call disregards any pending pause-family action. -/
def TransportState.pause (s : TransportState) : TransportState :=
  { s with state := PlayState.PAUSED, pendingPause := none }

/-- Modelled from the spec: `TransportControl::pauseScheduled(ms)`. -/
def TransportState.pauseScheduled (s : TransportState) (ms : Nat) : TransportState :=
  { s with pendingPause := some (s.now + ms) }

/-- Modelled from the spec: `TransportControl::stop` — immediate stop; a
stop-like call disregards any pending stop-family action. -/
def TransportState.stop (s : TransportState) : TransportState :=
  { s with state := PlayState.STOPPED, pendingStop := none }

/-- Modelled from the spec: `TransportControl::stopScheduled(ms)` — records
a pending stop at deadline `now + ms`, superseding any pending stop. -/
def TransportState.stopScheduled (s : TransportState) (ms : Nat) : TransportState :=
  { s with pendingStop := some (s.now + ms) }

/-- Modelled from the spec: number of pending actions of a family held by a
transport state (the model keeps at most one per family). -/
def TransportState.pendingCount (s : TransportState) (f : TransportFamily) : Nat :=
  match f with
  | .play => s.pendingPlay.toList.length
  | .pause => s.pendingPause.toList.length
  | .stop => s.pendingStop.toList.length

/-- Modelled from the spec: whether a pending one-shot action with the given
optional deadline fires at time `t`, and what remains pending afterwards (a
fired or absent action leaves nothing pending). -/
def firePending (pending : Option Nat) (t : Nat) : Option Nat × Bool :=
  match pending with
  | some d => if d ≤ t then (none, true) else (some d, false)
  | none => (none, false)

/-- Modelled from the spec: one mix tick at absolute time `t`. Each pending
action whose deadline has passed fires: it applies its transition and is
consumed. The returned list records which families fired during the tick. -/
def TransportState.tick (s : TransportState) (t : Nat) :
    TransportState × List TransportFamily :=
  let pp := firePending s.pendingPlay t
  let pq := firePending s.pendingPause t
  let ps := firePending s.pendingStop t
  let st1 := if pp.2 then PlayState.PLAYING else s.state
  let st2 := if pq.2 then PlayState.PAUSED else st1
  let st3 := if ps.2 then PlayState.STOPPED else st2
  (⟨st3, t, pp.1, pq.1, ps.1⟩,
   (if pp.2 then [TransportFamily.play] else []) ++
   (if pq.2 then [TransportFamily.pause] else []) ++
   (if ps.2 then [TransportFamily.stop] else []))

/-- Modelled from the spec: run a sequence of mix ticks at the given times,
collecting every fired family in order. -/
def TransportState.tickTrace (s : TransportState) (ts : List Nat) :
    TransportState × List TransportFamily :=
  match ts with
  | [] => (s, [])
  | t :: rest =>
    let (s1, fired) := s.tick t
    let (s2, more) := s1.tickTrace rest
    (s2, fired ++ more)

/-- Modelled from the spec: the pending action of a given family. -/
def TransportState.pending (s : TransportState) : TransportFamily → Option Nat
  | .play => s.pendingPlay
  | .pause => s.pendingPause
  | .stop => s.pendingStop

/-- Modelled from the spec: the scheduled transport call of a family
(`playScheduled` / `pauseScheduled` / `stopScheduled`; the faded variants
behave the same way for supersession purposes). -/
def TransportState.schedule (s : TransportState) (f : TransportFamily) (ms : Nat) :
    TransportState :=
  match f with
  | .play => s.playScheduled ms
  | .pause => s.pauseScheduled ms
  | .stop => s.stopScheduled ms

/-- Modelled from the spec: the immediate transport call of a family
(`play` / `pause` / `stop`). -/
def TransportState.immediate (s : TransportState) (f : TransportFamily) :
    TransportState :=
  match f with
  | .play => s.play
  | .pause => s.pause
  | .stop => s.stop

/-- Modelled from the spec: a fixed-capacity object pool as used by
`AudioEngine` for `SpatDecoderQueue`, `SpatDecoderFile`, `AudioObject` and
`SpeakersVirtualizer` (capacities come from `MemorySettings` at engine
initialisation). The free set is the list of free slot indices. -/
structure Pool where
  capacity : Nat
  freeSlots : List Nat
  deriving DecidableEq, Repr

/-- Modelled from the spec: a pool as built at engine initialisation, with
all `capacity` slots free. -/
def Pool.init (capacity : Nat) : Pool :=
  ⟨capacity, List.range capacity⟩

/-- Modelled from the spec: a `createX` call. On success it hands out a free
slot as the caller's handle and returns `OK`; when the pool is exhausted it
returns `NO_OBJECTS_IN_POOL` and leaves the pool unchanged. -/
def Pool.create (p : Pool) : Pool × Option Nat × EngineError :=
  match p.freeSlots with
  | [] => (p, none, EngineError.NO_OBJECTS_IN_POOL)
  | h :: t => (⟨p.capacity, t⟩, some h, EngineError.OK)

/-- Modelled from the spec: a `destroyX` call on a handle. Destroying a live
handle returns its slot to the free set and nulls the caller's handle (the
C++ signature takes the pointer by reference and sets it to the sentinel). -/
def Pool.destroy (p : Pool) (handle : Option Nat) : Pool × Option Nat :=
  match handle with
  | none => (p, none)
  | some h => (⟨p.capacity, h :: p.freeSlots⟩, none)

/-- Modelled from the spec: `n` successive `create` calls with no
intervening destroy, returning the final pool and each call's handle and
error in order. -/
def Pool.createMany (p : Pool) : Nat → Pool × List (Option Nat × EngineError)
  | 0 => (p, [])
  | n + 1 =>
    let (p1, h, e) := p.create
    let (p2, rest) := p1.createMany n
    (p2, (h, e) :: rest)

/-- Modelled from the spec: the state of a `SpeakersVirtualizer`, whose
implementation ships only in the closed binary. It owns one `AudioObject`
per speaker of the layout (so the interleaved channel count equals the
number of speakers), a combined sample queue of fixed total capacity, the
identity of the single thread that may enqueue (recorded at the first
`enqueueData` call, per the header's "MUST be called consistently on the
same thread"), and the end-of-stream flag. -/
structure VirtualizerState (α : Type) where
  numSpeakers : Nat
  capacity : Nat
  queued : List α
  enqueueThread : Option Nat
  endOfStream : Bool

/-- Modelled from the spec: whether an `enqueueData` call from thread `tid`
respects the single-writer discipline (first caller registers the thread). -/
def threadAllowed {α : Type} (s : VirtualizerState α) (tid : Nat) : Prop :=
  s.enqueueThread = none ∨ s.enqueueThread = some tid

instance {α : Type} (s : VirtualizerState α) (tid : Nat) :
    Decidable (threadAllowed s tid) := by
  unfold threadAllowed
  infer_instance

/-- Modelled from the spec: `SpeakersVirtualizer::enqueueData` (float and
16-bit variants via the sample-type parameter). Per the header
documentation: `FAIL` when there are no speaker objects; `BAD_THREAD` when
called from a thread other than the consistently used one;
`INVALID_BUFFER_SIZE` when the total sample count is not divisible by the
channel count; otherwise as many samples as fit are queued, `numEnqueued`
reports the number accepted, and the result is `OK` when everything was
accepted and `QUEUE_FULL` when only part was. Errors enqueue nothing and
report zero accepted. The result triple is (new state, numEnqueued, error). -/
def virtualizerEnqueueData {α : Type} (tid : Nat) (buf : List α) (eos : Bool)
    (s : VirtualizerState α) : VirtualizerState α × Nat × EngineError :=
  if s.numSpeakers = 0 then (s, 0, EngineError.FAIL)
  else if ¬ threadAllowed s tid then (s, 0, EngineError.BAD_THREAD)
  else if ¬ (s.numSpeakers ∣ buf.length) then (s, 0, EngineError.INVALID_BUFFER_SIZE)
  else
    let free := s.capacity - s.queued.length
    let accepted := buf.take free
    (⟨s.numSpeakers, s.capacity, s.queued ++ accepted, some tid, eos⟩,
     accepted.length,
     if accepted.length = buf.length then EngineError.OK else EngineError.QUEUE_FULL)

/-! Helper lemmas shared by the claim theorems. -/

/-- A tick never fires a family whose pending slot is empty, and leaves that
slot empty. -/
theorem tick_pending_none (s : TransportState) (f : TransportFamily)
    (h : s.pending f = none) (t : Nat) :
    (s.tick t).1.pending f = none ∧ f ∉ (s.tick t).2 := by
  cases f <;>
    simp only [TransportState.pending] at h <;>
    simp only [TransportState.tick, TransportState.pending, h, firePending] <;>
    constructor <;>
    first
      | trivial
      | (split_ifs <;> simp_all [firePending])

/-- A whole trace of ticks never fires a family whose pending slot is empty
at its start. -/
theorem tickTrace_pending_none (ts : List Nat) (s : TransportState)
    (f : TransportFamily) (h : s.pending f = none) :
    f ∉ (s.tickTrace ts).2 := by
  induction ts generalizing s with
  | nil => simp [TransportState.tickTrace]
  | cons t rest ih =>
    have hstep := tick_pending_none s f h t
    simp only [TransportState.tickTrace, List.mem_append]
    push_neg
    exact ⟨hstep.2, ih (s.tick t).1 hstep.1⟩

/-- A pool whose free set is empty rejects `create` and stays unchanged. -/
theorem pool_create_empty (p : Pool) (h : p.freeSlots = []) :
    p.create = (p, none, EngineError.NO_OBJECTS_IN_POOL) := by
  cases p with
  | mk c free =>
    simp only at h
    subst h
    rfl

/-- Successive creates consume exactly one free slot each. -/
theorem createMany_freeSlots_length (n : Nat) (p : Pool) :
    (p.createMany n).1.freeSlots.length = p.freeSlots.length - n := by
  induction n generalizing p with
  | zero => simp [Pool.createMany]
  | succ k ih =>
    cases p with
    | mk c free =>
      cases free with
      | nil =>
        simp [Pool.createMany, Pool.create, ih]
      | cons h t =>
        simp [Pool.createMany, Pool.create, ih]

/-- While free slots remain, every `create` in a run of successive creates
succeeds with `OK`. -/
theorem createMany_all_ok (n : Nat) (p : Pool) (hn : n ≤ p.freeSlots.length) :
    ∀ r ∈ (p.createMany n).2, r.2 = EngineError.OK := by
  induction n generalizing p with
  | zero => simp [Pool.createMany]
  | succ k ih =>
    cases p with
    | mk c free =>
      cases free with
      | nil => simp at hn
      | cons h t =>
        simp only [Pool.createMany, Pool.create, List.mem_cons]
        rintro r (rfl | hr)
        · rfl
        · exact ih ⟨c, t⟩ (by simpa using Nat.le_of_succ_le_succ hn) r hr

/-! Claim theorems. -/

/-- C1 counterexample: the claim says `getNumChannelsForMap` gives 2 for
`ChannelMap::STEREO`, but `STEREO` has no case in the switch and falls to
`default: return 0`, so the function returns 0 there, not 2. -/
theorem channel_count_stereo_counterexample :
    getNumChannelsForMap ChannelMap.STEREO = 0 ∧
    getNumChannelsForMap ChannelMap.STEREO ≠ 2 := by
  decide

/-- C1 (amended): for every `ChannelMap` enumerator,
`getNumChannelsForMap` returns the constant channel count of the documented
layout — TBE_8_2 gives 10, TBE_8 and TBE_6_2 give 8, TBE_6 and TBE_4_2 give
6, TBE_4 and AMBIX_4 give 4, the PAIR maps and HEADLOCKED_STEREO give 2,
the single-channel maps give 1, AMBIX_9 gives 9, AMBIX_9_2 gives 11 — while
STEREO (and INVALID) give 0 via the `default` branch; and the function is
pure: equal inputs always give equal outputs. -/
theorem channel_count_matches_table_and_pure :
    (∀ m : ChannelMap, getNumChannelsForMap m = numChannelsSpecTable m) ∧
    (∀ m m' : ChannelMap, m = m' →
      getNumChannelsForMap m = getNumChannelsForMap m') := by
  constructor
  · decide
  · intro m m' h
    rw [h]

/-- C1 witness: the amended theorem applied at a concrete input, with its
equality hypothesis discharged by `rfl`. -/
theorem channel_count_matches_table_and_pure_witness :
    getNumChannelsForMap ChannelMap.TBE_8_2 = getNumChannelsForMap ChannelMap.TBE_8_2 :=
  channel_count_matches_table_and_pure.2 ChannelMap.TBE_8_2 ChannelMap.TBE_8_2 rfl

/-- C2: `EngineError` is a dense negative-integer enumeration with
`OK == 0`: the member values are exactly the integers -21 through 0 with no
gaps (the value map is injective, bounded by [-21, 0], and every integer in
that interval is some member's value), and every non-OK code is negative.
Every fallible operation of the headers is declared to return `EngineError`
(and the models in this file do the same) rather than raising an
exception. -/
theorem engine_error_dense_negative :
    engineErrorValue EngineError.OK = 0 ∧
    (∀ e : EngineError, e ≠ EngineError.OK → engineErrorValue e < 0) ∧
    (∀ e : EngineError, -21 ≤ engineErrorValue e ∧ engineErrorValue e ≤ 0) ∧
    (∀ e e' : EngineError, engineErrorValue e = engineErrorValue e' → e = e') ∧
    (∀ v : Int, -21 ≤ v → v ≤ 0 → ∃ e : EngineError, engineErrorValue e = v) := by
  refine ⟨rfl, by decide, by decide, by decide, ?_⟩
  intro v h1 h2
  interval_cases v <;> decide

/-- C2 witness: the density part applied at the concrete value -13, which is
`INVALID_HEADER`. -/
theorem engine_error_dense_negative_witness :
    ∃ e : EngineError, engineErrorValue e = -13 :=
  engine_error_dense_negative.2.2.2.2 (-13) (by norm_num) (by norm_num)

/-- C9: `getNumChannelsForMap` is total (it is a function on all of its
domain; on the raw underlying integer every input takes some branch) and the
raw switch returns 0 exactly for `STEREO` (value 24), `INVALID` (value 25),
and any value outside the enumerated range 0..25; every other enumerator
gets a strictly positive count; hence a buffer sized from this helper for
the STEREO map has zero samples. -/
theorem channel_count_zero_exactly_stereo_invalid :
    (∀ m : ChannelMap, getNumChannelsForMap m = getNumChannelsForMapRaw (channelMapValue m)) ∧
    (∀ v : Int, getNumChannelsForMapRaw v = 0 ↔ (v = 24 ∨ v = 25 ∨ v < 0 ∨ 25 < v)) ∧
    (∀ m : ChannelMap, m ≠ ChannelMap.STEREO → m ≠ ChannelMap.INVALID →
      0 < getNumChannelsForMap m) ∧
    (∀ n : Int, n * getNumChannelsForMap ChannelMap.STEREO = 0) := by
  refine ⟨by decide, ?_, by decide, ?_⟩
  · intro v
    unfold getNumChannelsForMapRaw
    split_ifs <;> omega
  · intro n
    show n * 0 = 0
    exact mul_zero n

/-- C9 witness: the strict-positivity part applied at a concrete
non-STEREO, non-INVALID enumerator. -/
theorem channel_count_zero_exactly_stereo_invalid_witness :
    0 < getNumChannelsForMap ChannelMap.AMBIX_9 :=
  channel_count_zero_exactly_stereo_invalid.2.2.1 ChannelMap.AMBIX_9
    (by decide) (by decide)

/-- C10: `operator|` on `Options` is the bitwise or of the underlying
integers; it is commutative and idempotent, `Options::DEFAULT` (value 0) is
a two-sided identity, and `DEFAULT | DECODE_IN_AUDIO_CALLBACK` equals
`DECODE_IN_AUDIO_CALLBACK`. -/
theorem options_or_bitwise_comm_idem_identity :
    (∀ a b : Options, (orOptions a b).val = Nat.lor a.val b.val) ∧
    (∀ a b : Options, orOptions a b = orOptions b a) ∧
    (∀ a : Options, orOptions a a = a) ∧
    (∀ a : Options, orOptions a Options.DEFAULT = a ∧ orOptions Options.DEFAULT a = a) ∧
    orOptions Options.DEFAULT Options.DECODE_IN_AUDIO_CALLBACK =
      Options.DECODE_IN_AUDIO_CALLBACK := by
  refine ⟨fun a b => rfl, fun a b => ?_, fun a => ?_, fun a => ⟨?_, ?_⟩, by decide⟩
  · exact congrArg Options.mk (Nat.or_comm a.val b.val)
  · cases a with
    | mk v => exact congrArg Options.mk (Nat.or_self v)
  · cases a with
    | mk v => exact congrArg Options.mk (Nat.or_zero v)
  · cases a with
    | mk v => exact congrArg Options.mk (Nat.zero_or v)

/-- C3: for any queue state (hence at any point of any sequence of enqueue
calls) and either `enqueueData` variant, if the requested total sample count
is at most the free space reported by `getFreeSpaceInQueue` at call time
then the return value equals the requested count; if the request exceeds
free space the return value equals exactly the remaining free space, never
more; and the call never blocks (the model is a total function returning
immediately). -/
theorem enqueue_accepts_exactly_free_space :
    ∀ (α : Type) (s : SpatDecoderQueueState α) (buf : List α) (map : ChannelMap),
      (enqueueData buf map s).2 ≤ getFreeSpaceInQueue s map ∧
      (buf.length ≤ getFreeSpaceInQueue s map →
        (enqueueData buf map s).2 = buf.length) ∧
      (getFreeSpaceInQueue s map < buf.length →
        (enqueueData buf map s).2 = getFreeSpaceInQueue s map) := by
  intro α s buf map
  unfold enqueueData
  simp only [List.length_take]
  exact ⟨min_le_left _ _,
    fun h => min_eq_right h,
    fun h => min_eq_left (Nat.le_of_lt h)⟩

/-- C3 witness: on an empty queue of per-channel capacity 1 for the TBE_8_2
map (free space 10), a 3-sample enqueue returns 3. -/
theorem enqueue_accepts_exactly_free_space_witness :
    (enqueueData [(1 : Int), 2, 3] ChannelMap.TBE_8_2
      ⟨1, fun _ => [], false⟩).2 = 3 :=
  (enqueue_accepts_exactly_free_space Int ⟨1, fun _ => [], false⟩
    [1, 2, 3] ChannelMap.TBE_8_2).2.1 (by decide)

/-- C7: immediately after `flushQueue` the queue holds zero queued samples
(the size query returns zero for every channel map) and
`getEndOfStreamStatus` returns false, even if `setEndOfStream(true)` had
been called before the flush. -/
theorem flush_clears_samples_and_eos :
    ∀ (α : Type) (s : SpatDecoderQueueState α) (m : ChannelMap),
      getQueueSize (flushQueue s) m = 0 ∧
      getEndOfStreamStatus (flushQueue s) = false ∧
      getEndOfStreamStatus (flushQueue (setEndOfStream true s)) = false := by
  intro α s m
  exact ⟨rfl, rfl, rfl⟩

/-- C4: at most one scheduled/faded action per transport family is pending
at any time; a later scheduled call of the same family supersedes a pending
one; an immediate call of the family cancels a pending scheduled call; and
in particular after `stopScheduled(100)` followed immediately by `stop()`
the state is STOPPED with no pending stop, and no stop-family action ever
fires during any subsequent sequence of mix ticks — only the immediate stop
takes effect. -/
theorem transport_supersession :
    ∀ (s : TransportState) (f : TransportFamily) (d d1 d2 : Nat) (ts : List Nat),
      s.pendingCount f ≤ 1 ∧
      ((s.schedule f d1).schedule f d2).pending f = some (s.now + d2) ∧
      ((s.schedule f d).immediate f).pending f = none ∧
      ((s.stopScheduled 100).stop).state = PlayState.STOPPED ∧
      ((s.stopScheduled 100).stop).pendingStop = none ∧
      TransportFamily.stop ∉ (((s.stopScheduled 100).stop).tickTrace ts).2 := by
  intro s f d d1 d2 ts
  refine ⟨?_, ?_, ?_, rfl, rfl, ?_⟩
  · cases f <;>
      simp only [TransportState.pendingCount] <;>
      first
        | cases s.pendingPlay <;> simp
        | cases s.pendingPause <;> simp
        | cases s.pendingStop <;> simp
  · cases f <;> rfl
  · cases f <;> rfl
  · exact tickTrace_pending_none ts _ TransportFamily.stop rfl

/-- C5: with pool capacity fixed at engine initialisation, `poolSize`
successive creates from a fresh pool all succeed; the next create returns
`NO_OBJECTS_IN_POOL` and leaves the pool unchanged; destroying a handle
returns its slot (so the next create succeeds with `OK`) and sets the
caller's handle to the null sentinel; and neither create nor destroy
changes the capacity. -/
theorem pool_exhaustion_and_reuse :
    ∀ (n : Nat) (p : Pool) (h : Option Nat) (slot : Nat),
      (∀ r ∈ ((Pool.init n).createMany n).2, r.2 = EngineError.OK) ∧
      ((Pool.init n).createMany n).1.create =
        (((Pool.init n).createMany n).1, none, EngineError.NO_OBJECTS_IN_POOL) ∧
      (p.destroy (some slot)).2 = none ∧
      ((p.destroy (some slot)).1.create).2.2 = EngineError.OK ∧
      ((p.destroy (some slot)).1.create).2.1 = some slot ∧
      (p.destroy h).1.capacity = p.capacity ∧
      (p.create.1.capacity = p.capacity) := by
  intro n p h slot
  refine ⟨?_, ?_, rfl, rfl, rfl, ?_, ?_⟩
  · exact createMany_all_ok n (Pool.init n) (by simp [Pool.init])
  · apply pool_create_empty
    have hlen := createMany_freeSlots_length n (Pool.init n)
    simp [Pool.init] at hlen
    exact hlen
  · cases h with
    | none => rfl
    | some v => rfl
  · cases hp : p.freeSlots with
    | nil =>
      rw [pool_create_empty p hp]
    | cons a t =>
      cases p with
      | mk c free =>
        simp only at hp
        subst hp
        rfl

/-- C5 witness: the all-creates-succeed part applied to a concrete element
of the result list for a pool of capacity 2, and the destroy-nulls-handle
part at a concrete pool. -/
theorem pool_exhaustion_and_reuse_witness :
    ((some 0, EngineError.OK) : Option Nat × EngineError).2 = EngineError.OK ∧
    (Pool.destroy ⟨2, []⟩ (some 1)).2 = none :=
  ⟨(pool_exhaustion_and_reuse 2 ⟨2, []⟩ none 1).1 (some 0, EngineError.OK) (by decide),
   (pool_exhaustion_and_reuse 2 ⟨2, []⟩ (some 1) 1).2.2.1⟩

/-- C6: `SpeakersVirtualizer::enqueueData` returns `FAIL` when there are no
speaker objects; `BAD_THREAD` when called from a thread other than the one
consistently used for enqueueing; `INVALID_BUFFER_SIZE` when the total
sample count is not divisible by the channel count of the layout (one
channel per speaker); and on a valid call it returns `OK` exactly when all
requested samples were queued (`numEnqueued` = requested count) and
`QUEUE_FULL` when only the remaining free space was queued. Error returns
queue nothing and report zero accepted. -/
theorem virtualizer_enqueue_result_conditions :
    ∀ (α : Type) (s : VirtualizerState α) (tid : Nat) (buf : List α) (eos : Bool),
      (s.numSpeakers = 0 →
        virtualizerEnqueueData tid buf eos s = (s, 0, EngineError.FAIL)) ∧
      (s.numSpeakers ≠ 0 → ¬ threadAllowed s tid →
        virtualizerEnqueueData tid buf eos s = (s, 0, EngineError.BAD_THREAD)) ∧
      (s.numSpeakers ≠ 0 → threadAllowed s tid → ¬ (s.numSpeakers ∣ buf.length) →
        virtualizerEnqueueData tid buf eos s = (s, 0, EngineError.INVALID_BUFFER_SIZE)) ∧
      (s.numSpeakers ≠ 0 → threadAllowed s tid → s.numSpeakers ∣ buf.length →
        buf.length ≤ s.capacity - s.queued.length →
        (virtualizerEnqueueData tid buf eos s).2 = (buf.length, EngineError.OK)) ∧
      (s.numSpeakers ≠ 0 → threadAllowed s tid → s.numSpeakers ∣ buf.length →
        s.capacity - s.queued.length < buf.length →
        (virtualizerEnqueueData tid buf eos s).2 =
          (s.capacity - s.queued.length, EngineError.QUEUE_FULL)) ∧
      (s.numSpeakers ≠ 0 → threadAllowed s tid → s.numSpeakers ∣ buf.length →
        ((virtualizerEnqueueData tid buf eos s).2.2 = EngineError.OK ↔
          (virtualizerEnqueueData tid buf eos s).2.1 = buf.length)) := by
  intro α s tid buf eos
  refine ⟨?_, ?_, ?_, ?_, ?_, ?_⟩
  · intro h0
    simp [virtualizerEnqueueData, h0]
  · intro h0 ht
    simp [virtualizerEnqueueData, h0, ht]
  · intro h0 ht hd
    simp [virtualizerEnqueueData, h0, ht, hd]
  · intro h0 ht hd hfit
    simp only [virtualizerEnqueueData, h0, ht, hd, if_false, if_neg, not_true,
      not_false_iff, if_pos, List.length_take]
    simp [h0, ht, hd, min_eq_right hfit]
  · intro h0 ht hd hover
    simp only [virtualizerEnqueueData, List.length_take]
    have hmin : min (s.capacity - s.queued.length) buf.length =
        s.capacity - s.queued.length := min_eq_left (Nat.le_of_lt hover)
    simp [h0, ht, hd, hmin, Nat.ne_of_lt hover]
  · intro h0 ht hd
    simp only [virtualizerEnqueueData, List.length_take]
    simp only [h0, ht, hd, if_false, not_true, not_false_iff, if_pos]
    constructor
    · intro hok
      by_cases hlen : min (s.capacity - s.queued.length) buf.length = buf.length
      · simp [h0, ht, hd, hlen]
      · simp [h0, ht, hd, hlen] at hok
    · intro hlen
      simp [h0, ht, hd] at hlen ⊢
      simp [hlen]

/-- C6 witness: a valid call (2 speakers, thread not yet registered, 2
samples divisible by 2, free space 8) queues everything and returns `OK`. -/
theorem virtualizer_enqueue_result_conditions_witness :
    (virtualizerEnqueueData 7 [(1 : Int), 2] false
      ⟨2, 8, [], none, false⟩).2 = (2, EngineError.OK) :=
  (virtualizer_enqueue_result_conditions Int ⟨2, 8, [], none, false⟩ 7
    [1, 2] false).2.2.2.1 (by decide) (Or.inl rfl) (by decide) (by decide)

end TBE
